import Mathlib

/-
Shallow embedding of the request handlers in projects/views.py of the
transifex repository, together with theorems checking the specification
claims about them.  Django framework primitives (login_required,
get_object_or_404, message_set.create, the ORM save/delete calls) are
modelled explicitly; backend collaborators (component.trans, submit,
prepare_repo, clear_cache) are modelled as outcome oracles carried on the
component record, since their code is outside this file.
-/

namespace Transifex

/-- Exceptions that can be raised by handler code or by the backend
collaborators and propagate out of a handler. -/
inductive Exn where
  | fileFilterError
  | ioError
  | nameError (var : String)
  | multipleObjectsReturned
  | other (s : String)
deriving DecidableEq, Repr

/-- HTTP request methods distinguished by the handlers. -/
inductive Method where
  | GET
  | POST
deriving DecidableEq, Repr

/-- Targets of HttpResponseRedirect, built by reverse(...) in the source. -/
inductive Url where
  | projectList
  | projectDetail (projectSlug : String)
  | componentDetail (projectSlug componentSlug : String)
deriving DecidableEq, Repr

/-- User-facing messages created via request.user.message_set.create.
Each constructor stands for one literal message of the source. -/
inductive Msg where
  | projectDeleted (name : String)
  | componentDeleted (fullName : String)
  | fileFilterAdvice
  | selectFileFirst
  | submitSuccess (filename : String)
  | submitApology
  | postRequired
  | lockRemoved
  | lockOwnerOnly
  | lockCreated
deriving DecidableEq, Repr

/-- Audit log entries written by log_addition, log_change, log_deletion. -/
inductive LogEntry where
  | addition (name : String)
  | change (name : String) (msg : String)
  | deletion (name : String)
deriving DecidableEq, Repr

/-- Responses a handler can produce.  Http404 raised by get_object_or_404
or by the handler is modelled as the not-found response the framework
turns it into.  loginRedirect is the rejection issued by the
login_required guard.  fileView stands for the pygments-highlighted HTML
rendering of the content (the highlighting library is a black box per the
specification), fileAttachment for the plain text download. -/
inductive Response where
  | redirect (url : Url)
  | render (template : String)
  | http404
  | fileView (content fname : String)
  | fileAttachment (content fname : String)
  | loginRedirect
deriving DecidableEq, Repr

/-- Modelled from the spec: a Language row (languages/models.py is not
under src/) with the name and code fields the handlers read. -/
structure Language where
  name : String
  code : String
deriving DecidableEq, Repr

/-- Modelled from the spec: a POFile row (translations/models.py is not
under src/): one language translation file of a component, identified by
(component, filename), optionally linked to a Language. -/
structure POFile where
  id : Nat
  object_id : Nat
  filename : String
  language : Option Language
deriving DecidableEq, Repr

/-- Modelled from the spec: a POFileLock row: advisory exclusive-edit
marker on a POFile, with an owning user. -/
structure POFileLock where
  id : Nat
  pofile : Nat
  owner : Nat
deriving DecidableEq, Repr

/-- Modelled from the spec: a Project row with the fields the handlers
read. -/
structure Project where
  id : Nat
  slug : String
  name : String
deriving DecidableEq, Repr

/-- Outcome oracle for the translation backend component.trans: each
operation either succeeds or raises the recorded exception. -/
structure TransBackend where
  set_stats : Option Exn
  set_stats_for_lang : String → Option Exn
  get_file_content : String → Bool → Except Exn String
  guess_language : String → String

/-- Modelled from the spec: a Component row (projects/models.py is not
under src/) with the fields the handlers read, plus outcome oracles for
its backend collaborators: submit records the outcome of one
component.submit call, trans the translation backend. -/
structure Component where
  id : Nat
  slug : String
  project_slug : String
  name : String
  full_name : String
  submit : Option Exn
  trans : TransBackend

/-- An authenticated or anonymous user. -/
structure User where
  id : Nat
  is_authenticated : Bool
deriving DecidableEq, Repr

/-- Modelled from the spec: cleaned data produced by a valid ProjectForm. -/
structure ProjectData where
  slug : String
  name : String
deriving DecidableEq, Repr

/-- Modelled from the spec: cleaned data produced by a valid
ComponentForm; full_name is the computed full name of the component. -/
structure ComponentData where
  slug : String
  full_name : String
deriving DecidableEq, Repr

/-- Modelled from the spec: Component.get_full_name (projects/models.py,
not under src/) returns the component's computed full name, carried here
as a field of the cleaned form data. -/
def ComponentData.get_full_name (c : ComponentData) : String :=
  c.full_name

/-- Modelled from the spec: cleaned data produced by a valid UnitForm.
The name field is overwritten by the handler before saving; root stands
for the remaining unit fields. -/
structure Unit' where
  name : String
  root : String
deriving DecidableEq, Repr

/-- Persistence operations performed by component_create_update, in
program order: unit.save() and component.save().  saveComponent records
the primary key the saved instance had before saving (none for a new
component), the cleaned component data, and the name of the unit attached
to the component at save time. -/
inductive SaveOp where
  | saveUnit (u : Unit')
  | saveComponent (priorId : Option Nat) (data : ComponentData) (unitName : String)
deriving DecidableEq, Repr

/-- An HTTP request as the handlers observe it.  Modelled from the spec:
the bound Django forms (projects/forms.py is not under src/) are carried
as a validation outcome plus the cleaned instance data they would yield;
has_submited_file records whether request.FILES contains the
submited_file key. -/
structure Request where
  method : Method
  user : User
  has_submited_file : Bool
  project_form_valid : Bool
  project_form_data : ProjectData
  component_form_valid : Bool
  component_form_data : ComponentData
  unit_form_valid : Bool
  unit_form_data : Unit'

/-- The mutable world a request handler can read and write: the database
rows and the observable effects on collaborators, each effect list in
program order.  repos_prepared records component.prepare_repo() calls,
submissions records component.submit(...) calls as (component id, user id),
stats_for_lang records trans.set_stats_for_lang(code) completions,
stats_set records trans.set_stats() completions, caches_cleared records
component.clear_cache() calls, saves records the ORM saves of
component_create_update. -/
structure St where
  projects : List Project
  components : List Component
  pofiles : List POFile
  locks : List POFileLock
  messages : List (Nat × Msg)
  log : List LogEntry
  repos_prepared : List Nat
  submissions : List (Nat × Nat)
  stats_for_lang : List (Nat × String)
  stats_set : List Nat
  caches_cleared : List Nat
  saves : List SaveOp

/-- Result of running a handler: either a response with the final state,
or an uncaught exception that propagates out of the handler. -/
abbrev HResult := Except Exn (Response × St)

/-- A handler takes the request and the current state. -/
abbrev Handler := Request → St → HResult

/-- The login_required decorator: an unauthenticated request is rejected
before the wrapped handler body runs. -/
def login_required (h : Handler) : Handler :=
  fun req st =>
    if req.user.is_authenticated then h req st
    else Except.ok (Response.loginRedirect, st)

/-- get_object_or_404(Project, slug=...) -/
def getProject (st : St) (slug : String) : Option Project :=
  st.projects.find? (fun p => p.slug == slug)

/-- get_object_or_404(Component, slug=..., project__slug=...) -/
def getComponent (st : St) (project_slug component_slug : String) : Option Component :=
  st.components.find? (fun c => c.slug == component_slug && c.project_slug == project_slug)

/-- get_object_or_404(POFile, filename=..., object_id=component.id); the
toggle-lock handler's lookup by component and filename resolves the same
rows. -/
def getPOFile (st : St) (filename : String) (oid : Nat) : Option POFile :=
  st.pofiles.find? (fun p => p.filename == filename && p.object_id == oid)

/-- request.user.message_set.create(message=m) -/
def message_set_create (u : User) (m : Msg) (st : St) : St :=
  { st with messages := st.messages ++ [(u.id, m)] }

/-- Fresh primary key for a new Project row. -/
def freshProjectId (ps : List Project) : Nat :=
  (ps.map (fun p => p.id)).foldr max 0 + 1

/-- Fresh primary key for a new POFileLock row. -/
def freshLockId (ls : List POFileLock) : Nat :=
  (ls.map (fun l => l.id)).foldr max 0 + 1

/-- os.path.basename -/
def basename (s : String) : String :=
  (s.splitOn "/").getLastD s

/-- The language pair (lang_name, lang_code) computed by
component_submit_file: reading postats.language.name raises
AttributeError exactly when the POFile has no associated Language, in
which case the handler falls back to the filename and to
trans.guess_language. -/
def langPairOf (component : Component) (postats : POFile) : String × String :=
  match postats.language with
  | some l => (l.name, l.code)
  | none => (postats.filename, component.trans.guess_language postats.filename)

/-- The language code used for statistics recomputation after an upload. -/
def langCodeOf (component : Component) (postats : POFile) : String :=
  (langPairOf component postats).2

/-- Resolves the optional slug of a create/update endpoint: no slug means
a creation (no instance), a slug that resolves means an update of that
instance, a slug that does not resolve raises Http404. -/
def lookupOptProject (st : St) (slug : Option String) : Except Unit (Option Project) :=
  match slug with
  | none => Except.ok none
  | some s =>
    match getProject st s with
    | none => Except.error ()
    | some p => Except.ok (some p)

/-- Same resolution for an optional component slug inside a project. -/
def lookupOptComponent (st : St) (project_slug : String) (slug : Option String) :
    Except Unit (Option Component) :=
  match slug with
  | none => Except.ok none
  | some s =>
    match getComponent st project_slug s with
    | none => Except.error ()
    | some c => Except.ok (some c)

/-- Handler body of project_create_update (views.py lines 46-73). -/
def project_create_update (project_slug : Option String) : Handler :=
  fun req st =>
    match lookupOptProject st project_slug with
    | Except.error _ => Except.ok (Response.http404, st)
    | Except.ok project =>
      if req.method = Method.POST then
        if req.project_form_valid then
          match project with
          | none =>
            let newP : Project :=
              ⟨freshProjectId st.projects, req.project_form_data.slug,
               req.project_form_data.name⟩
            let st' := { st with
              projects := st.projects ++ [newP],
              log := st.log ++ [LogEntry.addition newP.name] }
            Except.ok (Response.redirect (Url.projectDetail newP.slug), st')
          | some p =>
            let updP : Project :=
              ⟨p.id, req.project_form_data.slug, req.project_form_data.name⟩
            let st' := { st with
              projects := st.projects.map (fun q => if q.id == p.id then updP else q),
              log := st.log ++ [LogEntry.change updP.name "This project has been changed."] }
            Except.ok (Response.redirect (Url.projectDetail updP.slug), st')
        else
          Except.ok (Response.render "projects/project_form.html", st)
      else
        Except.ok (Response.render "projects/project_form.html", st)

/-- Handler body of project_delete (views.py lines 77-90): on POST the
project row is deleted, the deletion is audit-logged, the user is
notified and the request is redirected to the project list; otherwise a
confirmation page is rendered and nothing changes. -/
def project_delete (project_slug : String) : Handler :=
  fun req st =>
    match getProject st project_slug with
    | none => Except.ok (Response.http404, st)
    | some project =>
      if req.method = Method.POST then
        let st1 := { st with
          projects := st.projects.filter (fun p => p.id != project.id) }
        let st2 := { st1 with log := st1.log ++ [LogEntry.deletion project.name] }
        let st3 := message_set_create req.user (Msg.projectDeleted project.name) st2
        Except.ok (Response.redirect Url.projectList, st3)
      else
        Except.ok (Response.render "projects/project_confirm_delete.html", st)

/-- Handler body of component_create_update (views.py lines 96-138): two
bound forms; on a POST where both validate, the unit name is overwritten
with the component's computed full name, the unit and then the component
are saved, an addition or change entry is logged depending on whether the
component had a primary key before saving, and the request redirects to
the component detail page. -/
def component_create_update (project_slug : String) (component_slug : Option String) :
    Handler :=
  fun req st =>
    match getProject st project_slug with
    | none => Except.ok (Response.http404, st)
    | some _project =>
      match lookupOptComponent st project_slug component_slug with
      | Except.error _ => Except.ok (Response.http404, st)
      | Except.ok component =>
        if req.method = Method.POST then
          if req.component_form_valid ∧ req.unit_form_valid then
            let data := req.component_form_data
            let unit : Unit' :=
              { req.unit_form_data with name := ComponentData.get_full_name data }
            let component_id : Option Nat := component.map (fun c => c.id)
            let st1 := { st with saves := st.saves ++
              [SaveOp.saveUnit unit, SaveOp.saveComponent component_id data unit.name] }
            let st2 :=
              match component_id with
              | none => { st1 with log := st1.log ++ [LogEntry.addition data.full_name] }
              | some _ => { st1 with log := st1.log ++
                  [LogEntry.change data.full_name "This component has been changed."] }
            Except.ok (Response.redirect (Url.componentDetail project_slug data.slug), st2)
          else
            Except.ok (Response.render "projects/component_form.html", st)
        else
          Except.ok (Response.render "projects/component_form.html", st)

/-- Handler body of component_delete (views.py lines 153-168). -/
def component_delete (project_slug component_slug : String) : Handler :=
  fun req st =>
    match getComponent st project_slug component_slug with
    | none => Except.ok (Response.http404, st)
    | some component =>
      if req.method = Method.POST then
        let st1 := { st with
          components := st.components.filter (fun c => c.id != component.id) }
        let st2 := message_set_create req.user (Msg.componentDeleted component.full_name) st1
        let st3 := { st2 with log := st2.log ++ [LogEntry.deletion component.name] }
        Except.ok (Response.redirect (Url.projectDetail project_slug), st3)
      else
        Except.ok (Response.render "projects/component_confirm_delete.html", st)

/-- Handler body of component_set_stats (views.py lines 171-188): the
repository is checked out, then trans.set_stats() runs; only
FileFilterError is caught, producing an advisory message; every other
exception propagates; both outcomes end in a redirect to the component
detail page. -/
def component_set_stats (project_slug component_slug : String) : Handler :=
  fun req st =>
    match getComponent st project_slug component_slug with
    | none => Except.ok (Response.http404, st)
    | some component =>
      let st1 := { st with repos_prepared := st.repos_prepared ++ [component.id] }
      match component.trans.set_stats with
      | none =>
        let st2 := { st1 with stats_set := st1.stats_set ++ [component.id] }
        Except.ok (Response.redirect (Url.componentDetail project_slug component_slug), st2)
      | some Exn.fileFilterError =>
        let st2 := message_set_create req.user Msg.fileFilterAdvice st1
        Except.ok (Response.redirect (Url.componentDetail project_slug component_slug), st2)
      | some e => Except.error e

/-- Handler body of component_clear_cache (views.py lines 192-197). -/
def component_clear_cache (project_slug component_slug : String) : Handler :=
  fun _req st =>
    match getComponent st project_slug component_slug with
    | none => Except.ok (Response.http404, st)
    | some component =>
      let st1 := { st with caches_cleared := st.caches_cleared ++ [component.id] }
      Except.ok (Response.redirect (Url.componentDetail project_slug component_slug), st1)

/-- Handler body of component_file (views.py lines 200-226): only IOError
from trans.get_file_content is converted into Http404; the file name of
the response is full_name plus the base name of the requested file. -/
def component_file (project_slug component_slug filename : String)
    (view isMsgmerged : Bool) : Handler :=
  fun _req st =>
    match getComponent st project_slug component_slug with
    | none => Except.ok (Response.http404, st)
    | some component =>
      match component.trans.get_file_content filename isMsgmerged with
      | Except.error Exn.ioError => Except.ok (Response.http404, st)
      | Except.error e => Except.error e
      | Except.ok content =>
        let fname := component.full_name ++ "." ++ basename filename
        if view then Except.ok (Response.fileView content fname, st)
        else Except.ok (Response.fileAttachment content fname, st)

/-- Handler body of component_submit_file (views.py lines 229-283).
Faithful to the source, including its two defects: component.submit is
called once OUTSIDE the try block (line 263) and once inside it
(line 265), so a failure of the first call propagates uncaught; and the
bare except block immediately evaluates the undefined name e inside
logger.debug, so a caught failure turns into an uncaught NameError
instead of the apology message. -/
def component_submit_file (project_slug component_slug filename : String) : Handler :=
  fun req st =>
    if req.method = Method.POST then
      match getComponent st project_slug component_slug with
      | none => Except.ok (Response.http404, st)
      | some component =>
        match getPOFile st filename component.id with
        | none => Except.ok (Response.http404, st)
        | some postats =>
          if req.has_submited_file then
            let lang_code := langCodeOf component postats
            let st1 := { st with repos_prepared := st.repos_prepared ++ [component.id] }
            match component.submit with
            | some e => Except.error e
            | none =>
              let st2 := { st1 with
                submissions := st1.submissions ++ [(component.id, req.user.id)] }
              match component.submit with
              | some _ => Except.error (Exn.nameError "e")
              | none =>
                let st3 := { st2 with
                  submissions := st2.submissions ++ [(component.id, req.user.id)] }
                match component.trans.set_stats_for_lang lang_code with
                | some _ => Except.error (Exn.nameError "e")
                | none =>
                  let st4 := { st3 with
                    stats_for_lang := st3.stats_for_lang ++ [(component.id, lang_code)] }
                  let st5 := message_set_create req.user
                    (Msg.submitSuccess postats.filename) st4
                  Except.ok
                    (Response.redirect (Url.componentDetail project_slug component_slug), st5)
          else
            let st' := message_set_create req.user Msg.selectFileFirst st
            Except.ok
              (Response.redirect (Url.componentDetail project_slug component_slug), st')
    else
      let st' := message_set_create req.user Msg.postRequired st
      Except.ok (Response.redirect (Url.componentDetail project_slug component_slug), st')

/-- Handler body of component_toggle_lock_file (views.py lines 287-307):
POFileLock.objects.get succeeds on exactly one matching row, raises
DoesNotExist on none (caught: a lock is created for the requester) and
MultipleObjectsReturned on several (uncaught). -/
def component_toggle_lock_file (project_slug component_slug filename : String) : Handler :=
  fun req st =>
    match getComponent st project_slug component_slug with
    | none => Except.ok (Response.http404, st)
    | some component =>
      match getPOFile st filename component.id with
      | none => Except.ok (Response.http404, st)
      | some pofile =>
        match st.locks.filter (fun l => l.pofile == pofile.id) with
        | [] =>
          let newLock : POFileLock := ⟨freshLockId st.locks, pofile.id, req.user.id⟩
          let st1 := { st with locks := st.locks ++ [newLock] }
          let st2 := message_set_create req.user Msg.lockCreated st1
          Except.ok
            (Response.redirect (Url.componentDetail project_slug component_slug), st2)
        | [lock] =>
          if req.user.id = lock.owner then
            let st1 := { st with locks := st.locks.filter (fun l => l.id != lock.id) }
            let st2 := message_set_create req.user Msg.lockRemoved st1
            Except.ok
              (Response.redirect (Url.componentDetail project_slug component_slug), st2)
          else
            let st1 := message_set_create req.user Msg.lockOwnerOnly st
            Except.ok
              (Response.redirect (Url.componentDetail project_slug component_slug), st1)
        | _ => Except.error Exn.multipleObjectsReturned

/-- The routed view: project_create_update carries the login_required
decorator in the source. -/
def project_create_update_view (project_slug : Option String) : Handler :=
  login_required (project_create_update project_slug)

/-- The routed view: project_delete carries the login_required decorator. -/
def project_delete_view (project_slug : String) : Handler :=
  login_required (project_delete project_slug)

/-- The routed view: component_create_update carries the login_required
decorator. -/
def component_create_update_view (project_slug : String) (component_slug : Option String) :
    Handler :=
  login_required (component_create_update project_slug component_slug)

/-- The routed view: component_delete carries the login_required decorator. -/
def component_delete_view (project_slug component_slug : String) : Handler :=
  login_required (component_delete project_slug component_slug)

/-- The routed view for component_set_stats: the source function has NO
login_required decorator (views.py line 171). -/
def component_set_stats_view (project_slug component_slug : String) : Handler :=
  component_set_stats project_slug component_slug

/-- The routed view: component_clear_cache carries the login_required
decorator. -/
def component_clear_cache_view (project_slug component_slug : String) : Handler :=
  login_required (component_clear_cache project_slug component_slug)

/-- The routed view for component_file: the source function has no
login_required decorator. -/
def component_file_view (project_slug component_slug filename : String)
    (view isMsgmerged : Bool) : Handler :=
  component_file project_slug component_slug filename view isMsgmerged

/-- The routed view: component_submit_file carries the login_required
decorator. -/
def component_submit_file_view (project_slug component_slug filename : String) : Handler :=
  login_required (component_submit_file project_slug component_slug filename)

/-- The routed view: component_toggle_lock_file carries the
login_required decorator. -/
def component_toggle_lock_file_view (project_slug component_slug filename : String) :
    Handler :=
  login_required (component_toggle_lock_file project_slug component_slug filename)

/-- A translation backend on which every operation succeeds. -/
def okTrans : TransBackend :=
  { set_stats := none
    set_stats_for_lang := fun _ => none
    get_file_content := fun _ _ => Except.ok "msgid"
    guess_language := fun fn => fn ++ "-code" }

/-- A sample project row. -/
def sampleProject : Project := ⟨3, "proj", "Sample project"⟩

/-- A sample component row whose collaborators all succeed. -/
def sampleComponent : Component :=
  { id := 7, slug := "comp", project_slug := "proj", name := "comp",
    full_name := "proj.comp", submit := none, trans := okTrans }

/-- A sample POFile row of the sample component, with a language set. -/
def samplePOFile : POFile := ⟨11, 7, "po/el.po", some ⟨"Greek", "el"⟩⟩

/-- A baseline state holding the sample rows and no recorded effects. -/
def baseSt : St :=
  { projects := [sampleProject], components := [sampleComponent],
    pofiles := [samplePOFile], locks := [], messages := [], log := [],
    repos_prepared := [], submissions := [], stats_for_lang := [],
    stats_set := [], caches_cleared := [], saves := [] }

/-- An authenticated user. -/
def authUser : User := ⟨5, true⟩

/-- An anonymous user. -/
def anonUser : User := ⟨0, false⟩

/-- A baseline authenticated POST request with a file attached and all
forms valid. -/
def baseReq : Request :=
  { method := Method.POST, user := authUser, has_submited_file := true,
    project_form_valid := true, project_form_data := ⟨"proj", "Sample project"⟩,
    component_form_valid := true, component_form_data := ⟨"comp", "proj.comp"⟩,
    unit_form_valid := true, unit_form_data := ⟨"old-unit-name", "svn"⟩ }

/-- The baseline request issued by an anonymous user. -/
def anonReq : Request := { baseReq with user := anonUser }

/-- The baseline request issued as GET. -/
def getReq : Request := { baseReq with method := Method.GET }

/-- The baseline request without the submited_file key in request.FILES. -/
def noFileReq : Request := { baseReq with has_submited_file := false }

/-- C1 (amended): for every unauthenticated request, each of the
mutating/administrative endpoints EXCEPT statistics recompute (project
create/update, project delete, component create/update, component delete,
cache clear, file upload submission, lock toggle) is rejected by the
login-required guard before any handler body runs or any state changes;
the statistics-recompute handler carries no such guard. -/
theorem C1_login_guard (req : Request) (st : St) (ps cs fn : String)
    (os : Option String) (h : req.user.is_authenticated = false) :
    project_create_update_view os req st = Except.ok (Response.loginRedirect, st) ∧
    project_delete_view ps req st = Except.ok (Response.loginRedirect, st) ∧
    component_create_update_view ps os req st = Except.ok (Response.loginRedirect, st) ∧
    component_delete_view ps cs req st = Except.ok (Response.loginRedirect, st) ∧
    component_clear_cache_view ps cs req st = Except.ok (Response.loginRedirect, st) ∧
    component_submit_file_view ps cs fn req st = Except.ok (Response.loginRedirect, st) ∧
    component_toggle_lock_file_view ps cs fn req st = Except.ok (Response.loginRedirect, st) := by
  simp [project_create_update_view, project_delete_view, component_create_update_view,
        component_delete_view, component_clear_cache_view, component_submit_file_view,
        component_toggle_lock_file_view, login_required, h]

/-- Witness for C1: the guarded views at a concrete anonymous request. -/
theorem C1_login_guard_witness :
    project_delete_view "proj" anonReq baseSt = Except.ok (Response.loginRedirect, baseSt) ∧
    component_submit_file_view "proj" "comp" "po/el.po" anonReq baseSt =
      Except.ok (Response.loginRedirect, baseSt) :=
  ⟨(C1_login_guard anonReq baseSt "proj" "comp" "po/el.po" none rfl).2.1,
   (C1_login_guard anonReq baseSt "proj" "comp" "po/el.po" none rfl).2.2.2.2.2.1⟩

/-- Counterexample to C1 as stated: an unauthenticated request to the
statistics-recompute endpoint is NOT rejected by the login-required
guard; its handler body runs, the repository checkout and the statistics
computation happen (the state changes), and a redirect is returned. -/
theorem C1_counterexample :
    anonReq.user.is_authenticated = false ∧
    baseSt.repos_prepared = [] ∧
    baseSt.stats_set = [] ∧
    (component_set_stats_view "proj" "comp" anonReq baseSt).toOption.map
        (fun r => (r.1, r.2.repos_prepared, r.2.stats_set)) =
      some (Response.redirect (Url.componentDetail "proj" "comp"), [7], [7]) :=
  ⟨rfl, rfl, rfl, rfl⟩

/-- C3 is a code bug, witnessed at two failing inputs.  First: when
component.submit raises, the exception escapes the handler uncaught,
because the first of the two submit calls stands outside the try block
(views.py line 263).  Second: when submit succeeds but the statistics
recomputation inside the try block raises, the bare except block
evaluates the undefined name e and the handler dies with a NameError
instead of producing the apology message and a redirect. -/
theorem C3_submit_failure_propagates :
    (component_submit_file_view "proj" "comp" "po/el.po" baseReq
        { baseSt with components :=
            [{ sampleComponent with submit := some (Exn.other "VCS error") }] } =
      Except.error (Exn.other "VCS error")) ∧
    (component_submit_file_view "proj" "comp" "po/el.po" baseReq
        { baseSt with components :=
            [{ sampleComponent with trans :=
                { okTrans with set_stats_for_lang := fun _ => some Exn.ioError } }] } =
      Except.error (Exn.nameError "e")) :=
  ⟨rfl, rfl⟩

/-- C4: a POST upload whose payload lacks the submited_file field yields
the select-a-file message and a redirect to the component detail page;
no checkout, submission or statistics recomputation happens (the state
changes only by that one message). -/
theorem C4_missing_file (ps cs fn : String) (req : Request) (st : St)
    (component : Component) (postats : POFile)
    (hauth : req.user.is_authenticated = true)
    (hm : req.method = Method.POST)
    (hf : req.has_submited_file = false)
    (hc : getComponent st ps cs = some component)
    (hp : getPOFile st fn component.id = some postats) :
    component_submit_file_view ps cs fn req st =
      Except.ok (Response.redirect (Url.componentDetail ps cs),
        { st with messages := st.messages ++ [(req.user.id, Msg.selectFileFirst)] }) := by
  simp [component_submit_file_view, login_required, hauth, component_submit_file,
        hm, hc, hp, hf, message_set_create]

/-- Witness for C4 at a concrete request with no file attached. -/
theorem C4_missing_file_witness :
    component_submit_file_view "proj" "comp" "po/el.po" noFileReq baseSt =
      Except.ok (Response.redirect (Url.componentDetail "proj" "comp"),
        { baseSt with messages :=
            baseSt.messages ++ [(noFileReq.user.id, Msg.selectFileFirst)] }) :=
  C4_missing_file "proj" "comp" "po/el.po" noFileReq baseSt sampleComponent samplePOFile
    rfl rfl rfl rfl rfl

/-- C10: a non-POST request to the upload endpoint only creates the
POST-required message and redirects to the component detail page; no
lookup, checkout, submission, statistics recomputation or record change
happens (the final state differs from the initial one by that one
message alone). -/
theorem C10_non_post_frame (ps cs fn : String) (req : Request) (st : St)
    (hauth : req.user.is_authenticated = true)
    (hm : req.method ≠ Method.POST) :
    component_submit_file_view ps cs fn req st =
      Except.ok (Response.redirect (Url.componentDetail ps cs),
        { st with messages := st.messages ++ [(req.user.id, Msg.postRequired)] }) := by
  simp [component_submit_file_view, login_required, hauth, component_submit_file,
        hm, message_set_create]

/-- Witness for C10 at a concrete GET request. -/
theorem C10_non_post_frame_witness :
    component_submit_file_view "proj" "comp" "po/el.po" getReq baseSt =
      Except.ok (Response.redirect (Url.componentDetail "proj" "comp"),
        { baseSt with messages :=
            baseSt.messages ++ [(getReq.user.id, Msg.postRequired)] }) :=
  C10_non_post_frame "proj" "comp" "po/el.po" getReq baseSt rfl (by decide)

/-- C2: the three-way lock toggle on an existing POFile.  No matching
lock: exactly one lock owned by the requester is appended and the
created message shown.  One matching lock owned by the requester: that
lock is deleted and the removed message shown.  One matching lock owned
by someone else: the lock rows are untouched and only the error message
is shown.  All three cases redirect to the component detail page. -/
theorem C2_toggle_lock (ps cs fn : String) (req : Request) (st : St)
    (component : Component) (pofile : POFile)
    (hauth : req.user.is_authenticated = true)
    (hc : getComponent st ps cs = some component)
    (hp : getPOFile st fn component.id = some pofile) :
    (st.locks.filter (fun l => l.pofile == pofile.id) = [] →
      component_toggle_lock_file_view ps cs fn req st =
        Except.ok (Response.redirect (Url.componentDetail ps cs),
          { st with
            locks := st.locks ++ [⟨freshLockId st.locks, pofile.id, req.user.id⟩],
            messages := st.messages ++ [(req.user.id, Msg.lockCreated)] })) ∧
    (∀ lock : POFileLock, st.locks.filter (fun l => l.pofile == pofile.id) = [lock] →
      req.user.id = lock.owner →
      component_toggle_lock_file_view ps cs fn req st =
        Except.ok (Response.redirect (Url.componentDetail ps cs),
          { st with
            locks := st.locks.filter (fun l => l.id != lock.id),
            messages := st.messages ++ [(req.user.id, Msg.lockRemoved)] })) ∧
    (∀ lock : POFileLock, st.locks.filter (fun l => l.pofile == pofile.id) = [lock] →
      req.user.id ≠ lock.owner →
      component_toggle_lock_file_view ps cs fn req st =
        Except.ok (Response.redirect (Url.componentDetail ps cs),
          { st with messages := st.messages ++ [(req.user.id, Msg.lockOwnerOnly)] })) := by
  refine ⟨?_, ?_, ?_⟩
  · intro hnone
    simp [component_toggle_lock_file_view, login_required, hauth,
          component_toggle_lock_file, hc, hp, hnone, message_set_create]
  · intro lock hone hown
    simp [component_toggle_lock_file_view, login_required, hauth,
          component_toggle_lock_file, hc, hp, hone, hown, message_set_create]
  · intro lock hone hown
    simp [component_toggle_lock_file_view, login_required, hauth,
          component_toggle_lock_file, hc, hp, hone, hown, message_set_create]

/-- Witness for C2 at a concrete state with no lock: a lock owned by the
requester is created. -/
theorem C2_toggle_lock_witness :
    component_toggle_lock_file_view "proj" "comp" "po/el.po" baseReq baseSt =
      Except.ok (Response.redirect (Url.componentDetail "proj" "comp"),
        { baseSt with
          locks := baseSt.locks ++ [⟨freshLockId baseSt.locks, samplePOFile.id, baseReq.user.id⟩],
          messages := baseSt.messages ++ [(baseReq.user.id, Msg.lockCreated)] }) :=
  (C2_toggle_lock "proj" "comp" "po/el.po" baseReq baseSt sampleComponent samplePOFile
    rfl rfl rfl).1 rfl

/-- C5: the component create/update endpoint persists the component and
its unit only when both forms validate (otherwise the form page is
re-rendered and nothing is saved); on success the unit is saved carrying
the component's computed full name as its name, then the component is
saved attached to that unit, an addition entry (new component) or change
entry (existing component) is logged, and the request redirects to the
component detail page. -/
theorem C5_create_update (ps : String) (cso : Option String) (req : Request) (st : St)
    (project : Project) (componentOpt : Option Component)
    (hauth : req.user.is_authenticated = true)
    (hm : req.method = Method.POST)
    (hproj : getProject st ps = some project)
    (hcomp : lookupOptComponent st ps cso = Except.ok componentOpt) :
    (req.component_form_valid = false ∨ req.unit_form_valid = false →
      component_create_update_view ps cso req st =
        Except.ok (Response.render "projects/component_form.html", st)) ∧
    (req.component_form_valid = true → req.unit_form_valid = true →
      component_create_update_view ps cso req st =
        Except.ok (Response.redirect (Url.componentDetail ps req.component_form_data.slug),
          { st with
            saves := st.saves ++
              [SaveOp.saveUnit { req.unit_form_data with
                 name := ComponentData.get_full_name req.component_form_data },
               SaveOp.saveComponent (componentOpt.map (fun c => c.id))
                 req.component_form_data
                 (ComponentData.get_full_name req.component_form_data)],
            log := st.log ++
              [match componentOpt.map (fun c => c.id) with
               | none => LogEntry.addition req.component_form_data.full_name
               | some _ => LogEntry.change req.component_form_data.full_name
                   "This component has been changed."] })) := by
  constructor
  · intro hinv
    rcases hinv with hinv | hinv <;>
      simp [component_create_update_view, login_required, hauth,
            component_create_update, hm, hproj, hcomp, hinv]
  · intro hv1 hv2
    cases componentOpt with
    | none =>
      simp [component_create_update_view, login_required, hauth,
            component_create_update, hm, hproj, hcomp, hv1, hv2]
    | some c =>
      simp [component_create_update_view, login_required, hauth,
            component_create_update, hm, hproj, hcomp, hv1, hv2]

/-- Witness for C5 at a concrete creation request with both forms valid. -/
theorem C5_create_update_witness :
    component_create_update_view "proj" none baseReq baseSt =
      Except.ok (Response.redirect (Url.componentDetail "proj" baseReq.component_form_data.slug),
        { baseSt with
          saves := baseSt.saves ++
            [SaveOp.saveUnit { baseReq.unit_form_data with
               name := ComponentData.get_full_name baseReq.component_form_data },
             SaveOp.saveComponent ((none : Option Component).map (fun c => c.id))
               baseReq.component_form_data
               (ComponentData.get_full_name baseReq.component_form_data)],
          log := baseSt.log ++
            [match (none : Option Component).map (fun c => c.id) with
             | none => LogEntry.addition baseReq.component_form_data.full_name
             | some _ => LogEntry.change baseReq.component_form_data.full_name
                 "This component has been changed."] }) :=
  (C5_create_update "proj" none baseReq baseSt sampleProject none
    rfl rfl rfl rfl).2 rfl rfl

/-- A component whose backend reports the file-filter error from
set_stats. -/
def ffComponent : Component :=
  { sampleComponent with trans := { okTrans with set_stats := some Exn.fileFilterError } }

/-- The baseline state with the file-filter-failing component instead. -/
def ffSt : St := { baseSt with components := [ffComponent] }

/-- C6: when trans.set_stats raises the file-filter error, the handler
swallows it, creates the corrective message and still redirects to the
component detail page; any other exception raised by set_stats is not
caught and propagates out of the handler. -/
theorem C6_set_stats (ps cs : String) (req : Request) (st : St) (component : Component)
    (hc : getComponent st ps cs = some component) :
    (component.trans.set_stats = some Exn.fileFilterError →
      component_set_stats_view ps cs req st =
        Except.ok (Response.redirect (Url.componentDetail ps cs),
          { st with
            repos_prepared := st.repos_prepared ++ [component.id],
            messages := st.messages ++ [(req.user.id, Msg.fileFilterAdvice)] })) ∧
    (∀ e : Exn, component.trans.set_stats = some e → e ≠ Exn.fileFilterError →
      component_set_stats_view ps cs req st = Except.error e) := by
  constructor
  · intro hff
    simp [component_set_stats_view, component_set_stats, hc, hff, message_set_create]
  · intro e he hne
    cases e <;>
      simp_all [component_set_stats_view, component_set_stats, hc, message_set_create]

/-- Witness for C6 at a concrete component reporting the file-filter
error. -/
theorem C6_set_stats_witness :
    component_set_stats_view "proj" "comp" baseReq ffSt =
      Except.ok (Response.redirect (Url.componentDetail "proj" "comp"),
        { ffSt with
          repos_prepared := ffSt.repos_prepared ++ [ffComponent.id],
          messages := ffSt.messages ++ [(baseReq.user.id, Msg.fileFilterAdvice)] }) :=
  (C6_set_stats "proj" "comp" baseReq ffSt ffComponent rfl).1 rfl

/-- A component whose backend raises IOError for every file request. -/
def ioErrComponent : Component :=
  { sampleComponent with trans :=
      { okTrans with get_file_content := fun _ _ => Except.error Exn.ioError } }

/-- The baseline state with the IOError-raising component instead. -/
def ioErrSt : St := { baseSt with components := [ioErrComponent] }

/-- C7: when trans.get_file_content raises IOError for the requested
filename, the file-fetch handler answers with the not-found response and
nothing else. -/
theorem C7_file_not_found (ps cs fn : String) (view isMsgmerged : Bool)
    (req : Request) (st : St) (component : Component)
    (hc : getComponent st ps cs = some component)
    (hio : component.trans.get_file_content fn isMsgmerged = Except.error Exn.ioError) :
    component_file_view ps cs fn view isMsgmerged req st =
      Except.ok (Response.http404, st) := by
  simp [component_file_view, component_file, hc, hio]

/-- Witness for C7 at a concrete component whose backend raises IOError. -/
theorem C7_file_not_found_witness :
    component_file_view "proj" "comp" "po/el.po" false true baseReq ioErrSt =
      Except.ok (Response.http404, ioErrSt) :=
  C7_file_not_found "proj" "comp" "po/el.po" false true baseReq ioErrSt
    ioErrComponent rfl rfl

/-- C8: a POST to the project delete endpoint deletes the project row,
logs the deletion, notifies the user and redirects to the project list;
the deleted project is no longer among the remaining rows.  Any non-POST
request renders the confirmation page and leaves the state untouched. -/
theorem C8_project_delete (ps : String) (req : Request) (st : St) (project : Project)
    (hauth : req.user.is_authenticated = true)
    (hp : getProject st ps = some project) :
    (req.method = Method.POST →
      project_delete_view ps req st =
        Except.ok (Response.redirect Url.projectList,
          { st with
            projects := st.projects.filter (fun p => p.id != project.id),
            log := st.log ++ [LogEntry.deletion project.name],
            messages := st.messages ++ [(req.user.id, Msg.projectDeleted project.name)] })) ∧
    (project ∉ st.projects.filter (fun p => p.id != project.id)) ∧
    (req.method ≠ Method.POST →
      project_delete_view ps req st =
        Except.ok (Response.render "projects/project_confirm_delete.html", st)) := by
  refine ⟨?_, ?_, ?_⟩
  · intro hpost
    simp [project_delete_view, login_required, hauth, project_delete, hp, hpost,
          message_set_create]
  · simp [List.mem_filter]
  · intro hget
    simp [project_delete_view, login_required, hauth, project_delete, hp, hget]

/-- Witness for C8 at a concrete POST delete request. -/
theorem C8_project_delete_witness :
    project_delete_view "proj" baseReq baseSt =
      Except.ok (Response.redirect Url.projectList,
        { baseSt with
          projects := baseSt.projects.filter (fun p => p.id != sampleProject.id),
          log := baseSt.log ++ [LogEntry.deletion sampleProject.name],
          messages := baseSt.messages ++
            [(baseReq.user.id, Msg.projectDeleted sampleProject.name)] }) :=
  (C8_project_delete "proj" baseReq baseSt sampleProject rfl rfl).1 rfl

/-- C9: on a successful upload, the language code handed to the
statistics recomputation comes from the POFile's associated Language
when one is set, and from trans.guess_language on the POFile's filename
when none is set; the success state records the recomputation under
exactly that code. -/
theorem C9_stats_language (ps cs fn : String) (req : Request) (st : St)
    (component : Component) (postats : POFile)
    (hauth : req.user.is_authenticated = true)
    (hm : req.method = Method.POST)
    (hf : req.has_submited_file = true)
    (hc : getComponent st ps cs = some component)
    (hp : getPOFile st fn component.id = some postats)
    (hsub : component.submit = none)
    (hstats : component.trans.set_stats_for_lang (langCodeOf component postats) = none) :
    (component_submit_file_view ps cs fn req st =
      Except.ok (Response.redirect (Url.componentDetail ps cs),
        { st with
          repos_prepared := st.repos_prepared ++ [component.id],
          submissions := st.submissions ++
            [(component.id, req.user.id), (component.id, req.user.id)],
          stats_for_lang := st.stats_for_lang ++
            [(component.id, langCodeOf component postats)],
          messages := st.messages ++
            [(req.user.id, Msg.submitSuccess postats.filename)] })) ∧
    (∀ l : Language, postats.language = some l → langCodeOf component postats = l.code) ∧
    (postats.language = none →
      langCodeOf component postats = component.trans.guess_language postats.filename) := by
  refine ⟨?_, ?_, ?_⟩
  · simp [component_submit_file_view, login_required, hauth, component_submit_file,
          hm, hc, hp, hf, hsub, hstats, message_set_create]
  · intro l hl
    simp [langCodeOf, langPairOf, hl]
  · intro hl
    simp [langCodeOf, langPairOf, hl]

/-- A POFile with no associated language, for the guessing fallback. -/
def noLangPOFile : POFile := ⟨12, 7, "po/xx.po", none⟩

/-- The baseline state whose POFile rows carry no language. -/
def noLangSt : St := { baseSt with pofiles := [noLangPOFile] }

/-- Witness for C9 at a concrete upload against a POFile without a
language: the code used is the guessed one. -/
theorem C9_stats_language_witness :
    (component_submit_file_view "proj" "comp" "po/xx.po" baseReq noLangSt =
      Except.ok (Response.redirect (Url.componentDetail "proj" "comp"),
        { noLangSt with
          repos_prepared := noLangSt.repos_prepared ++ [sampleComponent.id],
          submissions := noLangSt.submissions ++
            [(sampleComponent.id, baseReq.user.id), (sampleComponent.id, baseReq.user.id)],
          stats_for_lang := noLangSt.stats_for_lang ++
            [(sampleComponent.id, langCodeOf sampleComponent noLangPOFile)],
          messages := noLangSt.messages ++
            [(baseReq.user.id, Msg.submitSuccess noLangPOFile.filename)] })) ∧
    (noLangPOFile.language = none →
      langCodeOf sampleComponent noLangPOFile =
        sampleComponent.trans.guess_language noLangPOFile.filename) :=
  ⟨(C9_stats_language "proj" "comp" "po/xx.po" baseReq noLangSt sampleComponent
      noLangPOFile rfl rfl rfl rfl rfl rfl rfl).1,
   (C9_stats_language "proj" "comp" "po/xx.po" baseReq noLangSt sampleComponent
      noLangPOFile rfl rfl rfl rfl rfl rfl rfl).2.2⟩

end Transifex
